import Mathlib

/-!
# Verification of the PCA9557 I2C I/O-expander driver (`pca9557.py`)

Shallow embedding of the driver in Lean 4.

The driver talks to the chip through a byte-oriented I2C transport
(`i2c.readfrom_mem` / `i2c.writeto_mem`), both of which may raise a
transport exception.  We model the transport as a state machine over an
abstract device-state type `σ`: a read returns `some v` (the byte read)
or `none` (the call raised); a write returns `some s'` (the new device
state) or `none` (the call raised).  Reads do not change device state.

Every driver operation is embedded as a function that also returns the
list of bus transactions it attempted, so that "issues exactly these
transactions" and "touches the bus not at all" are statable.

Python bit arithmetic on unbounded non-negative ints is embedded over
`Nat`:
* `current | (1 << pin)`  becomes  `current ||| (1 <<< pin)`;
* `current & ~(1 << pin)` (AND with the complement of a one-bit mask,
  i.e. clearing bit `pin`) becomes `current ^^^ (current &&& (1 <<< pin))`,
  since `Nat` has no complement; the two agree on all non-negative ints.

Python's `pin` and mode/level/polarity arguments may be negative, so they
are embedded as `Int`.
-/

/-- One attempted bus transaction, as seen by the transport mock. -/
inductive Txn where
  | read : Nat → Txn
  | write : Nat → Nat → Txn
deriving DecidableEq, Repr

/-- The I2C transport collaborator: `readfrom_mem` yields the byte read or
raises (`none`); `writeto_mem` yields the updated device state or raises
(`none`). The device address is fixed per driver instance and elided. -/
structure I2C (σ : Type) where
  readfrom_mem : σ → Nat → Option Nat
  writeto_mem : σ → Nat → Nat → Option σ

/-- `PCA9557_INPUT_REG = 0x00` -/
def PCA9557_INPUT_REG : Nat := 0x00
/-- `PCA9557_OUTPUT_REG = 0x01` -/
def PCA9557_OUTPUT_REG : Nat := 0x01
/-- `PCA9557_POLARITY_REG = 0x02` -/
def PCA9557_POLARITY_REG : Nat := 0x02
/-- `PCA9557_CONFIG_REG = 0x03` -/
def PCA9557_CONFIG_REG : Nat := 0x03

/-- `PIN_LOW = 0` -/
def PIN_LOW : Int := 0
/-- `PIN_HIGH = 1` -/
def PIN_HIGH : Int := 1
/-- `PIN_OUTPUT = 0` -/
def PIN_OUTPUT : Int := 0
/-- `PIN_INPUT = 1` -/
def PIN_INPUT : Int := 1
/-- `PIN_NON_INVERTED = 0` -/
def PIN_NON_INVERTED : Int := 0
/-- `PIN_INVERTED = 1` -/
def PIN_INVERTED : Int := 1

/-- Python `current | (1 << pin)`: set bit `pin`. -/
def setBit (current : Nat) (pin : Nat) : Nat :=
  current ||| (1 <<< pin)

/-- Python `current & ~(1 << pin)` on non-negative ints: clear bit `pin`
(expressed without a `Nat` complement by xor-ing out the masked bit). -/
def clearBit (current : Nat) (pin : Nat) : Nat :=
  current ^^^ (current &&& (1 <<< pin))

/-- `PCA9557._read_reg(reg)`: `try: data = i2c.readfrom_mem(addr, reg, 1);
return data[0] except: return 0`.  The exception is caught inside, so the
helper is total; the attempted read is recorded in the trace. -/
def readReg {σ : Type} (i2c : I2C σ) (s : σ) (reg : Nat) : Nat × List Txn :=
  ((i2c.readfrom_mem s reg).getD 0, [Txn.read reg])

/-- `PCA9557._write_reg(reg, value)`: `try: i2c.writeto_mem(addr, reg,
bytes([value])); return True except: return False`.  The exception is
caught inside, so the helper is total: it returns `true` and the new
device state on success, `false` and the unchanged state on failure. -/
def writeReg {σ : Type} (i2c : I2C σ) (s : σ) (reg : Nat) (value : Nat) :
    Bool × σ × List Txn :=
  let r := i2c.writeto_mem s reg value
  (r.isSome, r.getD s, [Txn.write reg value])

/-- `PCA9557.__init__(i2c, addr, debug)`, body of the `try` block.
Non-debug path: read Config, read Output (values unused), write
`Config = 0x00`, write `Output = 0xFF` (write results ignored).
With `debug = true` the code additionally re-reads Config and Output at
the end for the verification printout.  A raised exception inside the
`try` block would be re-raised (`Except.error`), but `_read_reg` and
`_write_reg` both catch internally and never raise, so every call in the
body is total. -/
def PCA9557_init {σ : Type} (i2c : I2C σ) (s : σ) (debug : Bool) :
    Except Unit (σ × List Txn) :=
  let (_config, t1) := readReg i2c s PCA9557_CONFIG_REG
  let (_output, t2) := readReg i2c s PCA9557_OUTPUT_REG
  let (_ok1, s1, t3) := writeReg i2c s PCA9557_CONFIG_REG 0x00
  let (_ok2, s2, t4) := writeReg i2c s1 PCA9557_OUTPUT_REG 0xFF
  if debug then
    let (_config2, t5) := readReg i2c s2 PCA9557_CONFIG_REG
    let (_output2, t6) := readReg i2c s2 PCA9557_OUTPUT_REG
    Except.ok (s2, t1 ++ t2 ++ t3 ++ t4 ++ t5 ++ t6)
  else
    Except.ok (s2, t1 ++ t2 ++ t3 ++ t4)

/-- `PCA9557.set_pin_mode(pin, mode)`: validate `0 <= pin <= 7` (else
`False`, no bus access); read Config; clear bit `pin` if
`mode == PIN_OUTPUT` else set it; write back, returning the write's
success. -/
def set_pin_mode {σ : Type} (i2c : I2C σ) (s : σ) (pin : Int) (mode : Int) :
    Bool × σ × List Txn :=
  if 0 ≤ pin ∧ pin ≤ 7 then
    let (current, t1) := readReg i2c s PCA9557_CONFIG_REG
    let new_value :=
      if mode = PIN_OUTPUT then clearBit current pin.toNat
      else setBit current pin.toNat
    let (ok, s', t2) := writeReg i2c s PCA9557_CONFIG_REG new_value
    (ok, s', t1 ++ t2)
  else
    (false, s, [])

/-- `PCA9557.set_pin_value(pin, value)`: validate `0 <= pin <= 7` (else
`False`, no bus access); read Output; clear bit `pin` if
`value == PIN_LOW` else set it; write back, returning the write's
success. -/
def set_pin_value {σ : Type} (i2c : I2C σ) (s : σ) (pin : Int) (value : Int) :
    Bool × σ × List Txn :=
  if 0 ≤ pin ∧ pin ≤ 7 then
    let (current, t1) := readReg i2c s PCA9557_OUTPUT_REG
    let new_value :=
      if value = PIN_LOW then clearBit current pin.toNat
      else setBit current pin.toNat
    let (ok, s', t2) := writeReg i2c s PCA9557_OUTPUT_REG new_value
    (ok, s', t1 ++ t2)
  else
    (false, s, [])

/-- `PCA9557.set_pin_polarity(pin, polarity)`: validate `0 <= pin <= 7`
(else `False`, no bus access); read Polarity; clear bit `pin` if
`polarity == PIN_NON_INVERTED` else set it; write back, returning the
write's success. -/
def set_pin_polarity {σ : Type} (i2c : I2C σ) (s : σ) (pin : Int) (polarity : Int) :
    Bool × σ × List Txn :=
  if 0 ≤ pin ∧ pin ≤ 7 then
    let (current, t1) := readReg i2c s PCA9557_POLARITY_REG
    let new_value :=
      if polarity = PIN_NON_INVERTED then clearBit current pin.toNat
      else setBit current pin.toNat
    let (ok, s', t2) := writeReg i2c s PCA9557_POLARITY_REG new_value
    (ok, s', t1 ++ t2)
  else
    (false, s, [])

/-- `PCA9557.get_pin_value(pin)`: validate `0 <= pin <= 7` (else `-1`,
no bus access); read Input; return `PIN_HIGH` if `value & (1 << pin)` is
truthy (non-zero) else `PIN_LOW`. -/
def get_pin_value {σ : Type} (i2c : I2C σ) (s : σ) (pin : Int) :
    Int × List Txn :=
  if 0 ≤ pin ∧ pin ≤ 7 then
    let (value, t) := readReg i2c s PCA9557_INPUT_REG
    ((if value &&& (1 <<< pin.toNat) ≠ 0 then PIN_HIGH else PIN_LOW), t)
  else
    (-1, [])

/-- `PCA9557Pin`: stores a reference to the expander (implicit here, since
the expander's own state is the device state `σ`) and the pin number. -/
structure PCA9557Pin where
  pin_num : Int
deriving DecidableEq, Repr

/-- `PCA9557Pin.__init__(pca9557, pin_num, debug)`: store the pin number,
then call `set_pin_mode(pin_num, PIN_OUTPUT)`, ignoring its boolean
result; the adapter is returned unconditionally. -/
def PCA9557Pin_init {σ : Type} (i2c : I2C σ) (s : σ) (pin_num : Int) :
    PCA9557Pin × σ × List Txn :=
  let (_ok, s', t) := set_pin_mode i2c s pin_num PIN_OUTPUT
  (⟨pin_num⟩, s', t)

/-- `PCA9557Pin.value(val=None)`: with `val` provided (`some`), write the
pin (`PIN_HIGH` if `val` is truthy, i.e. non-zero, else `PIN_LOW`) and
return the write's boolean result; with `val` absent (`none`), read the
pin and return the integer reading.  The sum type records which of the
two Python return types is produced. -/
def PCA9557Pin_value {σ : Type} (i2c : I2C σ) (s : σ) (p : PCA9557Pin)
    (val : Option Int) : (Bool ⊕ Int) × σ × List Txn :=
  match val with
  | some v =>
      let (ok, s', t) :=
        set_pin_value i2c s p.pin_num (if v ≠ 0 then PIN_HIGH else PIN_LOW)
      (Sum.inl ok, s', t)
  | none =>
      let (r, t) := get_pin_value i2c s p.pin_num
      (Sum.inr r, s, t)

/-! ## Concrete transports for witnesses and counterexamples -/

/-- A simulated register file: the four device registers, reads and
writes never fail. -/
structure RegFile where
  input : Nat
  output : Nat
  polarity : Nat
  config : Nat
deriving DecidableEq, Repr

/-- Reading the simulated register file: never fails on the four valid
register addresses. -/
def regFileRead (f : RegFile) (reg : Nat) : Option Nat :=
  if reg = PCA9557_INPUT_REG then some f.input
  else if reg = PCA9557_OUTPUT_REG then some f.output
  else if reg = PCA9557_POLARITY_REG then some f.polarity
  else if reg = PCA9557_CONFIG_REG then some f.config
  else none

/-- Writing the simulated register file: never fails on the four valid
register addresses (a write to the read-only Input register is simulated
as stored, but the driver never issues one). -/
def regFileWrite (f : RegFile) (reg : Nat) (v : Nat) : Option RegFile :=
  if reg = PCA9557_INPUT_REG then some { f with input := v }
  else if reg = PCA9557_OUTPUT_REG then some { f with output := v }
  else if reg = PCA9557_POLARITY_REG then some { f with polarity := v }
  else if reg = PCA9557_CONFIG_REG then some { f with config := v }
  else none

/-- The simulated-register-file transport (reads and writes never fail). -/
def regFileI2C : I2C RegFile :=
  { readfrom_mem := regFileRead, writeto_mem := regFileWrite }

/-- A transport whose every read and every write raises a transport
error. -/
def failI2C : I2C Unit :=
  { readfrom_mem := fun _ _ => none, writeto_mem := fun _ _ _ => none }

/-! ## Bit-level helper lemmas -/

/-- The one-bit mask `1 << p` has exactly bit `p` set. -/
theorem testBit_one_shiftLeft (p i : Nat) :
    (1 <<< p).testBit i = decide (i = p) := by
  rw [Nat.shiftLeft_eq, one_mul]
  rcases eq_or_ne i p with rfl | h
  · simp [Nat.testBit_two_pow_self]
  · simp [Nat.testBit_two_pow_of_ne (Ne.symm h), h]

/-- `clearBit` clears bit `p` and leaves every other bit of `c` alone. -/
theorem clearBit_testBit (c p i : Nat) :
    (clearBit c p).testBit i = (c.testBit i && !decide (i = p)) := by
  simp only [clearBit, Nat.testBit_xor, Nat.testBit_and, testBit_one_shiftLeft]
  rcases eq_or_ne i p with rfl | h
  · simp
  · simp [h]

/-- `setBit` sets bit `p` and leaves every other bit of `c` alone. -/
theorem setBit_testBit (c p i : Nat) :
    (setBit c p).testBit i = (c.testBit i || decide (i = p)) := by
  simp only [setBit, Nat.testBit_or, testBit_one_shiftLeft]

/-- Python's truthiness test `value & (1 << pin)` is exactly `testBit`. -/
theorem and_mask_ne_zero_iff (v p : Nat) :
    (v &&& (1 <<< p) ≠ 0) ↔ v.testBit p = true := by
  rw [Nat.shiftLeft_eq, one_mul, Nat.and_two_pow]
  cases h : v.testBit p <;> simp [h]

/-! ## Characterization of the setters over the simulated register file -/

/-- On the register file, `set_pin_mode` with a valid pin reads Config,
writes back Config with bit `pin` cleared (mode 0) or set (otherwise),
and succeeds. -/
theorem set_pin_mode_regFile (f : RegFile) (pin : Int) (mode : Int)
    (h : 0 ≤ pin ∧ pin ≤ 7) :
    set_pin_mode regFileI2C f pin mode =
      (true,
       { f with config := if mode = PIN_OUTPUT then clearBit f.config pin.toNat
                          else setBit f.config pin.toNat },
       [Txn.read PCA9557_CONFIG_REG,
        Txn.write PCA9557_CONFIG_REG
          (if mode = PIN_OUTPUT then clearBit f.config pin.toNat
           else setBit f.config pin.toNat)]) := by
  simp [set_pin_mode, if_pos h, readReg, writeReg, regFileI2C, regFileRead,
    regFileWrite, PCA9557_INPUT_REG, PCA9557_OUTPUT_REG, PCA9557_POLARITY_REG,
    PCA9557_CONFIG_REG]

/-- On the register file, `set_pin_value` with a valid pin reads Output,
writes back Output with bit `pin` cleared (level 0) or set (otherwise),
and succeeds. -/
theorem set_pin_value_regFile (f : RegFile) (pin : Int) (value : Int)
    (h : 0 ≤ pin ∧ pin ≤ 7) :
    set_pin_value regFileI2C f pin value =
      (true,
       { f with output := if value = PIN_LOW then clearBit f.output pin.toNat
                          else setBit f.output pin.toNat },
       [Txn.read PCA9557_OUTPUT_REG,
        Txn.write PCA9557_OUTPUT_REG
          (if value = PIN_LOW then clearBit f.output pin.toNat
           else setBit f.output pin.toNat)]) := by
  simp [set_pin_value, if_pos h, readReg, writeReg, regFileI2C, regFileRead,
    regFileWrite, PCA9557_INPUT_REG, PCA9557_OUTPUT_REG, PCA9557_POLARITY_REG,
    PCA9557_CONFIG_REG]

/-- On the register file, `set_pin_polarity` with a valid pin reads
Polarity, writes back Polarity with bit `pin` cleared (polarity 0) or set
(otherwise), and succeeds. -/
theorem set_pin_polarity_regFile (f : RegFile) (pin : Int) (polarity : Int)
    (h : 0 ≤ pin ∧ pin ≤ 7) :
    set_pin_polarity regFileI2C f pin polarity =
      (true,
       { f with polarity := if polarity = PIN_NON_INVERTED then clearBit f.polarity pin.toNat
                            else setBit f.polarity pin.toNat },
       [Txn.read PCA9557_POLARITY_REG,
        Txn.write PCA9557_POLARITY_REG
          (if polarity = PIN_NON_INVERTED then clearBit f.polarity pin.toNat
           else setBit f.polarity pin.toNat)]) := by
  simp [set_pin_polarity, if_pos h, readReg, writeReg, regFileI2C, regFileRead,
    regFileWrite, PCA9557_INPUT_REG, PCA9557_OUTPUT_REG, PCA9557_POLARITY_REG,
    PCA9557_CONFIG_REG]

/-! ## Claims -/

/-- C2: Construction (with the default `debug = False`), for every
transport and device state, issues exactly one read of Config, one read
of Output, one write of `Config = 0x00` and one write of
`Output = 0xFF`, in that order, and no other transaction. -/
theorem init_bus_transaction_sequence {σ : Type} (i2c : I2C σ) (s : σ) :
    ∃ s' : σ, PCA9557_init i2c s false =
      Except.ok (s',
        [Txn.read PCA9557_CONFIG_REG, Txn.read PCA9557_OUTPUT_REG,
         Txn.write PCA9557_CONFIG_REG 0x00, Txn.write PCA9557_OUTPUT_REG 0xFF]) :=
  ⟨_, rfl⟩

/-- C1 counterexample: with a transport whose every call raises a
transport error, both startup writes fail, yet construction still
succeeds and returns an expander — the error is caught inside
`_write_reg` (which returns `False`, ignored by `__init__`) and never
reaches the constructor's `except ... raise`. -/
theorem init_transport_error_counterexample :
    failI2C.writeto_mem () PCA9557_CONFIG_REG 0x00 = none
  ∧ failI2C.writeto_mem () PCA9557_OUTPUT_REG 0xFF = none
  ∧ PCA9557_init failI2C () false =
      Except.ok ((),
        [Txn.read PCA9557_CONFIG_REG, Txn.read PCA9557_OUTPUT_REG,
         Txn.write PCA9557_CONFIG_REG 0x00, Txn.write PCA9557_OUTPUT_REG 0xFF]) :=
  ⟨rfl, rfl, rfl⟩

/-- C1 amended: a transport error raised by a startup write is caught
inside `_write_reg`, which returns `False`; `__init__` ignores that
result, so construction never fails — for every transport, device state
and debug flag it returns an expander. -/
theorem init_never_raises {σ : Type} (i2c : I2C σ) (s : σ) (debug : Bool) :
    ∃ r, PCA9557_init i2c s debug = Except.ok r := by
  cases debug <;> exact ⟨_, rfl⟩

/-- C5: for every pin index outside 0–7, every per-pin operation returns
its failure sentinel (`False` for the setters, `-1` for `get_pin_value`)
with no bus transaction and unchanged device state. -/
theorem invalid_pin_sentinel_no_bus {σ : Type} (i2c : I2C σ) (s : σ)
    (pin : Int) (h : ¬(0 ≤ pin ∧ pin ≤ 7)) (m v q : Int) :
    set_pin_mode i2c s pin m = (false, s, [])
  ∧ set_pin_value i2c s pin v = (false, s, [])
  ∧ set_pin_polarity i2c s pin q = (false, s, [])
  ∧ get_pin_value i2c s pin = (-1, []) := by
  refine ⟨?_, ?_, ?_, ?_⟩ <;>
    simp [set_pin_mode, set_pin_value, set_pin_polarity, get_pin_value, h]

/-- C5 witness: at the concrete invalid pins 8 and -1 against the
simulated register file. -/
theorem invalid_pin_sentinel_no_bus_witness :
    ¬((0 : Int) ≤ 8 ∧ (8 : Int) ≤ 7)
  ∧ set_pin_mode regFileI2C ⟨0, 0, 0, 0⟩ 8 1 = (false, ⟨0, 0, 0, 0⟩, [])
  ∧ get_pin_value regFileI2C ⟨0, 0, 0, 0⟩ 8 = (-1, [])
  ∧ set_pin_value regFileI2C ⟨0, 0, 0, 0⟩ (-1) 1 = (false, ⟨0, 0, 0, 0⟩, []) :=
  ⟨by decide,
   (invalid_pin_sentinel_no_bus regFileI2C ⟨0, 0, 0, 0⟩ 8 (by decide) 1 1 1).1,
   (invalid_pin_sentinel_no_bus regFileI2C ⟨0, 0, 0, 0⟩ 8 (by decide) 1 1 1).2.2.2,
   (invalid_pin_sentinel_no_bus regFileI2C ⟨0, 0, 0, 0⟩ (-1) (by decide) 1 1 1).2.1⟩

/-- C9: each setter compares its second argument only against 0, so every
non-zero argument (e.g. 2) behaves exactly like the corresponding "1"
enum value (input / high / inverted), for every pin, transport and
device state. -/
theorem setters_nonzero_arg_sets_bit {σ : Type} (i2c : I2C σ) (s : σ)
    (pin : Int) (m v q : Int) (hm : m ≠ 0) (hv : v ≠ 0) (hq : q ≠ 0) :
    set_pin_mode i2c s pin m = set_pin_mode i2c s pin PIN_INPUT
  ∧ set_pin_value i2c s pin v = set_pin_value i2c s pin PIN_HIGH
  ∧ set_pin_polarity i2c s pin q = set_pin_polarity i2c s pin PIN_INVERTED := by
  refine ⟨?_, ?_, ?_⟩ <;>
    simp [set_pin_mode, set_pin_value, set_pin_polarity, PIN_OUTPUT, PIN_LOW,
      PIN_NON_INVERTED, PIN_INPUT, PIN_HIGH, PIN_INVERTED, hm, hv, hq]

/-- C9 witness: argument 2 behaves like 1 at pin 3 on the simulated
register file. -/
theorem setters_nonzero_arg_sets_bit_witness :
    set_pin_mode regFileI2C ⟨0, 0, 0, 0⟩ 3 2 = set_pin_mode regFileI2C ⟨0, 0, 0, 0⟩ 3 PIN_INPUT
  ∧ set_pin_value regFileI2C ⟨0, 0, 0, 0⟩ 3 2 = set_pin_value regFileI2C ⟨0, 0, 0, 0⟩ 3 PIN_HIGH
  ∧ set_pin_polarity regFileI2C ⟨0, 0, 0, 0⟩ 3 2 =
      set_pin_polarity regFileI2C ⟨0, 0, 0, 0⟩ 3 PIN_INVERTED :=
  setters_nonzero_arg_sets_bit regFileI2C ⟨0, 0, 0, 0⟩ 3 2 2 2
    (by decide) (by decide) (by decide)

/-- C3: frame effect — against the simulated register file holding
arbitrary register contents, for every valid pin and every setter
argument, the register value each setter writes back (visible as the
register in the post-state) agrees with the old value on every bit other
than the targeted one. -/
theorem setters_frame_preservation (f : RegFile) (pin : Int)
    (h : 0 ≤ pin ∧ pin ≤ 7) (m v q : Int) (i : Nat) (hi : i ≠ pin.toNat) :
    ((set_pin_mode regFileI2C f pin m).2.1.config.testBit i = f.config.testBit i)
  ∧ ((set_pin_value regFileI2C f pin v).2.1.output.testBit i = f.output.testBit i)
  ∧ ((set_pin_polarity regFileI2C f pin q).2.1.polarity.testBit i
        = f.polarity.testBit i) := by
  refine ⟨?_, ?_, ?_⟩
  · rw [set_pin_mode_regFile f pin m h]
    split <;> simp [clearBit_testBit, setBit_testBit, hi]
  · rw [set_pin_value_regFile f pin v h]
    split <;> simp [clearBit_testBit, setBit_testBit, hi]
  · rw [set_pin_polarity_regFile f pin q h]
    split <;> simp [clearBit_testBit, setBit_testBit, hi]

/-- C3 witness: registers 0x55/0xAA/0x0F/0xF0, pin 3, bit 5. -/
theorem setters_frame_preservation_witness :
    ((0 : Int) ≤ 3 ∧ (3 : Int) ≤ 7) ∧ (5 : Nat) ≠ (3 : Int).toNat
  ∧ ((set_pin_mode regFileI2C ⟨0x55, 0xAA, 0x0F, 0xF0⟩ 3 1).2.1.config.testBit 5
        = (0xF0 : Nat).testBit 5)
  ∧ ((set_pin_value regFileI2C ⟨0x55, 0xAA, 0x0F, 0xF0⟩ 3 0).2.1.output.testBit 5
        = (0xAA : Nat).testBit 5)
  ∧ ((set_pin_polarity regFileI2C ⟨0x55, 0xAA, 0x0F, 0xF0⟩ 3 1).2.1.polarity.testBit 5
        = (0x0F : Nat).testBit 5) :=
  ⟨by decide, by decide,
   (setters_frame_preservation ⟨0x55, 0xAA, 0x0F, 0xF0⟩ 3 (by decide) 1 0 1 5 (by decide)).1,
   (setters_frame_preservation ⟨0x55, 0xAA, 0x0F, 0xF0⟩ 3 (by decide) 1 0 1 5 (by decide)).2.1,
   (setters_frame_preservation ⟨0x55, 0xAA, 0x0F, 0xF0⟩ 3 (by decide) 1 0 1 5 (by decide)).2.2⟩

/-- The uniform read-modify-write bit-update rule of the spec: clear bit
`pin` of `current` when the enum argument is 0, set it otherwise. -/
def bitUpdate (current : Nat) (pin : Nat) (b : Int) : Nat :=
  if b = 0 then clearBit current pin else setBit current pin

/-- C4: for every transport, device state, valid pin and argument, all
three setters write back exactly `bitUpdate current pin arg` — clear the
bit for the 0 value of the respective enum, set it otherwise — where
`current` is the value the preceding read returned (0 if the read
failed), identically against Config, Output and Polarity. -/
theorem setters_uniform_bit_update {σ : Type} (i2c : I2C σ) (s : σ)
    (pin : Int) (h : 0 ≤ pin ∧ pin ≤ 7) (b : Int) :
    (set_pin_mode i2c s pin b).2.2 =
      [Txn.read PCA9557_CONFIG_REG,
       Txn.write PCA9557_CONFIG_REG
         (bitUpdate ((i2c.readfrom_mem s PCA9557_CONFIG_REG).getD 0) pin.toNat b)]
  ∧ (set_pin_value i2c s pin b).2.2 =
      [Txn.read PCA9557_OUTPUT_REG,
       Txn.write PCA9557_OUTPUT_REG
         (bitUpdate ((i2c.readfrom_mem s PCA9557_OUTPUT_REG).getD 0) pin.toNat b)]
  ∧ (set_pin_polarity i2c s pin b).2.2 =
      [Txn.read PCA9557_POLARITY_REG,
       Txn.write PCA9557_POLARITY_REG
         (bitUpdate ((i2c.readfrom_mem s PCA9557_POLARITY_REG).getD 0) pin.toNat b)] := by
  refine ⟨?_, ?_, ?_⟩ <;>
    simp [set_pin_mode, set_pin_value, set_pin_polarity, readReg, writeReg,
      bitUpdate, PIN_OUTPUT, PIN_LOW, PIN_NON_INVERTED, h]

/-- C4 witness: pin 2, both argument values, on the register file with
Config = Output = Polarity = 0x55. -/
theorem setters_uniform_bit_update_witness :
    (set_pin_mode regFileI2C ⟨0, 0x55, 0x55, 0x55⟩ 2 0).2.2 =
      [Txn.read PCA9557_CONFIG_REG,
       Txn.write PCA9557_CONFIG_REG (bitUpdate 0x55 2 0)]
  ∧ (set_pin_value regFileI2C ⟨0, 0x55, 0x55, 0x55⟩ 2 1).2.2 =
      [Txn.read PCA9557_OUTPUT_REG,
       Txn.write PCA9557_OUTPUT_REG (bitUpdate 0x55 2 1)] :=
  ⟨(setters_uniform_bit_update regFileI2C ⟨0, 0x55, 0x55, 0x55⟩ 2 (by decide) 0).1,
   (setters_uniform_bit_update regFileI2C ⟨0, 0x55, 0x55, 0x55⟩ 2 (by decide) 1).2.1⟩

/-- C6: against the simulated register file (reads and writes never
fail), for every valid pin, each of {mode, output value, polarity} and
each argument b ∈ {0, 1}, invoking the setter with (pin, b) and then
reading back bit `pin` of the corresponding register yields b. -/
theorem set_then_readback (f : RegFile) (pin : Int) (h : 0 ≤ pin ∧ pin ≤ 7)
    (b : Int) (hb : b = 0 ∨ b = 1) :
    ((readReg regFileI2C (set_pin_mode regFileI2C f pin b).2.1
        PCA9557_CONFIG_REG).1.testBit pin.toNat = decide (b = 1))
  ∧ ((readReg regFileI2C (set_pin_value regFileI2C f pin b).2.1
        PCA9557_OUTPUT_REG).1.testBit pin.toNat = decide (b = 1))
  ∧ ((readReg regFileI2C (set_pin_polarity regFileI2C f pin b).2.1
        PCA9557_POLARITY_REG).1.testBit pin.toNat = decide (b = 1)) := by
  rcases hb with rfl | rfl <;> refine ⟨?_, ?_, ?_⟩ <;>
    (first
      | rw [set_pin_mode_regFile _ _ _ h]
      | rw [set_pin_value_regFile _ _ _ h]
      | rw [set_pin_polarity_regFile _ _ _ h]) <;>
    simp [readReg, regFileI2C, regFileRead, PCA9557_CONFIG_REG,
      PCA9557_OUTPUT_REG, PCA9557_POLARITY_REG, PCA9557_INPUT_REG,
      PIN_OUTPUT, PIN_LOW, PIN_NON_INVERTED, clearBit_testBit, setBit_testBit]

/-- C6 witness: pin 6 with b = 1 and pin 1 with b = 0 on register file
0x00/0x00/0xFF/0xFF. -/
theorem set_then_readback_witness :
    ((readReg regFileI2C (set_pin_mode regFileI2C ⟨0, 0, 0xFF, 0xFF⟩ 6 1).2.1
        PCA9557_CONFIG_REG).1.testBit 6 = true)
  ∧ ((readReg regFileI2C (set_pin_value regFileI2C ⟨0, 0, 0xFF, 0xFF⟩ 1 0).2.1
        PCA9557_OUTPUT_REG).1.testBit 1 = false) := by
  refine ⟨?_, ?_⟩
  · have h := (set_then_readback ⟨0, 0, 0xFF, 0xFF⟩ 6 (by decide) 1 (Or.inr rfl)).1
    simpa using h
  · have h := (set_then_readback ⟨0, 0, 0xFF, 0xFF⟩ 1 (by decide) 0 (Or.inl rfl)).2.1
    simpa using h

/-- C7: for a valid pin, `get_pin_value` issues exactly one read of the
Input register and returns its bit `pin` as 0/1; a failed read yields a
register value of 0 and hence result 0 (never -1); the result is -1
exactly for an invalid pin index. -/
theorem get_pin_value_behavior {σ : Type} (i2c : I2C σ) (s : σ) (pin : Int) :
    ((0 ≤ pin ∧ pin ≤ 7) →
       (get_pin_value i2c s pin).2 = [Txn.read PCA9557_INPUT_REG]
     ∧ (∀ v, i2c.readfrom_mem s PCA9557_INPUT_REG = some v →
         (get_pin_value i2c s pin).1 =
           if v.testBit pin.toNat then PIN_HIGH else PIN_LOW)
     ∧ (i2c.readfrom_mem s PCA9557_INPUT_REG = none →
         (get_pin_value i2c s pin).1 = PIN_LOW))
  ∧ ((get_pin_value i2c s pin).1 = -1 ↔ ¬(0 ≤ pin ∧ pin ≤ 7)) := by
  by_cases h : 0 ≤ pin ∧ pin ≤ 7
  · refine ⟨fun _ => ⟨?_, ?_, ?_⟩, ?_⟩
    · simp [get_pin_value, readReg, h]
    · intro v hv
      simp only [get_pin_value, readReg, if_pos h, hv, Option.getD_some]
      by_cases hb : v.testBit pin.toNat
      · rw [if_pos ((and_mask_ne_zero_iff v pin.toNat).mpr hb), if_pos hb]
      · rw [if_neg ?_, if_neg hb]
        intro hc
        exact hb ((and_mask_ne_zero_iff v pin.toNat).mp hc)
    · intro hn
      simp [get_pin_value, readReg, h, hn, PIN_LOW]
    · simp only [h, not_true_eq_false, iff_false]
      simp only [get_pin_value, readReg, if_pos h]
      split <;> simp [PIN_HIGH, PIN_LOW]
  · refine ⟨fun hc => absurd hc h, ?_⟩
    simp [get_pin_value, h]

/-- C7 witness: input register 0x08 makes pin 3 read 1; a failing
transport makes every valid pin read 0; pin -2 yields -1. -/
theorem get_pin_value_behavior_witness :
    (get_pin_value regFileI2C ⟨0x08, 0, 0, 0⟩ 3).1 = PIN_HIGH
  ∧ (get_pin_value failI2C () 3).1 = PIN_LOW
  ∧ (get_pin_value regFileI2C ⟨0x08, 0, 0, 0⟩ (-2)).1 = -1 := by
  refine ⟨?_, ?_, ?_⟩
  · have h := ((get_pin_value_behavior regFileI2C ⟨0x08, 0, 0, 0⟩ 3).1
      (by decide)).2.1 0x08 rfl
    simpa using h
  · exact ((get_pin_value_behavior failI2C () 3).1 (by decide)).2.2 rfl
  · exact (get_pin_value_behavior regFileI2C ⟨0x08, 0, 0, 0⟩ (-2)).2.mpr (by decide)

/-- C8: constructing a `PCA9557Pin` always calls
`set_pin_mode(pin_num, PIN_OUTPUT)` and returns the adapter regardless of
the outcome (a failed or even raising device write is not surfaced); for
a valid pin the construction issues exactly the Config read and the
Config write clearing bit `pin_num`. -/
theorem pin_adapter_init_behavior {σ : Type} (i2c : I2C σ) (s : σ)
    (pin_num : Int) :
    (PCA9557Pin_init i2c s pin_num).1 = ⟨pin_num⟩
  ∧ (PCA9557Pin_init i2c s pin_num).2 = (set_pin_mode i2c s pin_num PIN_OUTPUT).2
  ∧ ((0 ≤ pin_num ∧ pin_num ≤ 7) →
      (PCA9557Pin_init i2c s pin_num).2.2 =
        [Txn.read PCA9557_CONFIG_REG,
         Txn.write PCA9557_CONFIG_REG
           (clearBit ((i2c.readfrom_mem s PCA9557_CONFIG_REG).getD 0)
             pin_num.toNat)]) := by
  by_cases h : 0 ≤ pin_num ∧ pin_num ≤ 7 <;>
    refine ⟨?_, ?_, fun hv => ?_⟩ <;>
    simp [PCA9557Pin_init, set_pin_mode, readReg, writeReg, PIN_OUTPUT, h] <;>
    first
      | rfl
      | exact absurd hv h

/-- C8 witness: on a transport whose every call raises, the adapter for
pin 2 is still constructed and the Config read and write were issued. -/
theorem pin_adapter_init_behavior_witness :
    (PCA9557Pin_init failI2C () 2).1 = ⟨2⟩
  ∧ (PCA9557Pin_init failI2C () 2).2.2 =
      [Txn.read PCA9557_CONFIG_REG,
       Txn.write PCA9557_CONFIG_REG
         (clearBit ((failI2C.readfrom_mem () PCA9557_CONFIG_REG).getD 0)
           ((2 : Int).toNat))] :=
  ⟨(pin_adapter_init_behavior failI2C () 2).1,
   (pin_adapter_init_behavior failI2C () 2).2.2 (by decide)⟩

/-- C10: `PCA9557Pin.value` reads (delegating to `get_pin_value`,
returning an int) only when the argument is absent; any provided
argument — including the falsy 0 — causes a write: 0 drives the pin low,
any non-zero value drives it high, and the boolean write result is
returned instead of a reading. -/
theorem pin_value_dispatch {σ : Type} (i2c : I2C σ) (s : σ) (p : PCA9557Pin)
    (h : 0 ≤ p.pin_num ∧ p.pin_num ≤ 7) :
    (PCA9557Pin_value i2c s p none).2.2 = [Txn.read PCA9557_INPUT_REG]
  ∧ (PCA9557Pin_value i2c s p none).1 = Sum.inr (get_pin_value i2c s p.pin_num).1
  ∧ (PCA9557Pin_value i2c s p (some 0)).2.2 =
      [Txn.read PCA9557_OUTPUT_REG,
       Txn.write PCA9557_OUTPUT_REG
         (clearBit ((i2c.readfrom_mem s PCA9557_OUTPUT_REG).getD 0)
           p.pin_num.toNat)]
  ∧ (∀ v : Int, v ≠ 0 →
      (PCA9557Pin_value i2c s p (some v)).2.2 =
        [Txn.read PCA9557_OUTPUT_REG,
         Txn.write PCA9557_OUTPUT_REG
           (setBit ((i2c.readfrom_mem s PCA9557_OUTPUT_REG).getD 0)
             p.pin_num.toNat)])
  ∧ (∀ v : Int, (PCA9557Pin_value i2c s p (some v)).1 =
      Sum.inl (set_pin_value i2c s p.pin_num
        (if v ≠ 0 then PIN_HIGH else PIN_LOW)).1) := by
  refine ⟨?_, ?_, ?_, fun v hv => ?_, fun v => ?_⟩
  · simp [PCA9557Pin_value, get_pin_value, readReg, h]
  · simp [PCA9557Pin_value, get_pin_value, readReg, h]
  · simp [PCA9557Pin_value, set_pin_value, readReg, writeReg, PIN_LOW, PIN_HIGH, h]
  · simp [PCA9557Pin_value, set_pin_value, readReg, writeReg, PIN_LOW, PIN_HIGH, h, hv]
  · by_cases hv : v = 0 <;>
      simp [PCA9557Pin_value, set_pin_value, readReg, writeReg, PIN_LOW, PIN_HIGH, h, hv]

/-- C10 witness: pin 5 against the register file with Output = 0xFF:
`value(None)` reads Input only; `value(0)` performs the
read-modify-write on Output. -/
theorem pin_value_dispatch_witness :
    (PCA9557Pin_value regFileI2C ⟨0, 0xFF, 0, 0⟩ ⟨5⟩ none).2.2 =
      [Txn.read PCA9557_INPUT_REG]
  ∧ (PCA9557Pin_value regFileI2C ⟨0, 0xFF, 0, 0⟩ ⟨5⟩ (some 0)).2.2 =
      [Txn.read PCA9557_OUTPUT_REG,
       Txn.write PCA9557_OUTPUT_REG
         (clearBit ((regFileI2C.readfrom_mem ⟨0, 0xFF, 0, 0⟩
             PCA9557_OUTPUT_REG).getD 0) ((⟨5⟩ : PCA9557Pin).pin_num.toNat))] :=
  ⟨(pin_value_dispatch regFileI2C ⟨0, 0xFF, 0, 0⟩ ⟨5⟩ (by decide)).1,
   (pin_value_dispatch regFileI2C ⟨0, 0xFF, 0, 0⟩ ⟨5⟩ (by decide)).2.2.1⟩
